import Mathlib

/-!
Shallow embedding of the auto-insurance claims workflow
(`notebooks/auto_insurance_claims.ipynb`).

The notebook defines pydantic data models (`ClaimInfo`, `PolicyQueries`,
`PolicyRecommendation`, `ClaimDecision`) and a linear llama-index
`AutoInsuranceWorkflow` with steps
`load_claim_info → generate_policy_queries → retrieve_policy_text →
generate_recommendation → finalize_decision → output_result`.

External collaborators (the claim-source file read, the LLM structured
predictions, the retrievers) are modelled as oracle inputs; Python floats
are modelled as rationals (every value appearing in the spec is exactly
representable); Python exceptions are modelled as `Except` with the
spec's error taxonomy (the `IndexError` raised by
`get_declarations_docs(...)[0]` on an empty result is the spec's
`DeclarationNotFound`).
-/

/-- Model of a JSON value as read by `json.load`, to the granularity
pydantic validation of `ClaimInfo` distinguishes: strings, numbers,
null, and anything else. -/
inductive JValue where
  | jstr : String → JValue
  | jnum : Rat → JValue
  | jnull : JValue
  | jother : JValue
deriving DecidableEq, Repr

/-- A JSON object, as the list of its key/value pairs. -/
def JObject := List (String × JValue)

/-- `ClaimInfo` (pydantic `BaseModel`): extracted insurance claim
information. `estimated_repair_cost : float` is a rational here;
`vehicle_details : Optional[str] = None`. -/
structure ClaimInfo where
  claim_number : String
  policy_number : String
  claimant_name : String
  date_of_loss : String
  loss_description : String
  estimated_repair_cost : Rat
  vehicle_details : Option String := none
deriving DecidableEq, Repr

/-- `PolicyQueries` (pydantic): `queries: List[str]` with
`default_factory=list`, so a missing field validates to `[]`. -/
structure PolicyQueries where
  queries : List String := []
deriving DecidableEq, Repr

/-- `PolicyRecommendation` (pydantic): `policy_section` and
`recommendation_summary` are required; `deductible` and
`settlement_amount` are `Optional[float] = None`. -/
structure PolicyRecommendation where
  policy_section : String
  recommendation_summary : String
  deductible : Option Rat := none
  settlement_amount : Option Rat := none
deriving DecidableEq, Repr

/-- `ClaimDecision` (pydantic). -/
structure ClaimDecision where
  claim_number : String
  covered : Bool
  deductible : Rat
  recommended_payout : Rat
  notes : Option String := none
deriving DecidableEq, Repr

/-- The spec's error taxonomy for a run (§7); `Timeout` is not
reachable in the embedded code and is omitted. -/
inductive RunError where
  | sourceUnavailable
  | malformedClaim
  | generationFailed
  | declarationNotFound
  | synthesisFailed
deriving DecidableEq, Repr

/-- Error raised by the external claim source (`open`/read failure). -/
inductive SourceError where
  | unavailable
deriving DecidableEq, Repr

/-- Error raised by the external reasoning collaborator
(`llm.astructured_predict`): an LLM failure or a response that cannot
be parsed into the requested shape. -/
inductive CollabError where
  | failed
deriving DecidableEq, Repr

/-- Look a key up in a JSON object (first occurrence wins, as in a
Python dict built by `json.load`). -/
def jget (data : JObject) (k : String) : Option JValue :=
  (List.find? (fun p => p.1 == k) data).map (fun p => p.2)

/-- Read a required string field. -/
def jstrField (data : JObject) (k : String) : Option String :=
  match jget data k with
  | some (JValue.jstr s) => some s
  | _ => none

/-- Read a required numeric field. -/
def jnumField (data : JObject) (k : String) : Option Rat :=
  match jget data k with
  | some (JValue.jnum q) => some q
  | _ => none

/-- Read an `Optional[str]` field: absent or `null` gives `none`,
a string gives `some`, any other shape is a validation error. -/
def joptStrField (data : JObject) (k : String) : Option (Option String) :=
  match jget data k with
  | none => some none
  | some JValue.jnull => some none
  | some (JValue.jstr s) => some (some s)
  | some _ => none

/-- `ClaimInfo.model_validate`: pydantic validation of the raw record.
`none` models a `ValidationError` (missing or wrongly typed field). -/
def ClaimInfo.model_validate (data : JObject) : Option ClaimInfo := do
  let cn ← jstrField data "claim_number"
  let pn ← jstrField data "policy_number"
  let nm ← jstrField data "claimant_name"
  let dl ← jstrField data "date_of_loss"
  let ld ← jstrField data "loss_description"
  let cost ← jnumField data "estimated_repair_cost"
  let vd ← joptStrField data "vehicle_details"
  pure { claim_number := cn, policy_number := pn, claimant_name := nm,
         date_of_loss := dl, loss_description := ld,
         estimated_repair_cost := cost, vehicle_details := vd }

/-- `PolicyQueries.model_validate` for the `queries` field: pydantic's
`default_factory=list` turns an absent field into `[]`. -/
def PolicyQueries.model_validate (queriesField : Option (List String)) : PolicyQueries :=
  { queries := queriesField.getD [] }

/-- `parse_claim(file_path)`: read the claim source and validate.
The source read is an oracle: either the raw JSON object or a read
failure (`SourceUnavailable`). -/
def parse_claim (source : Except SourceError JObject) : Except RunError ClaimInfo :=
  match source with
  | Except.error _ => Except.error RunError.sourceUnavailable
  | Except.ok data =>
    match ClaimInfo.model_validate data with
    | none => Except.error RunError.malformedClaim
    | some c => Except.ok c

/-- Does the second character list start with the first? -/
def startsWithChars : List Char → List Char → Bool
  | [], _ => true
  | _ :: _, [] => false
  | p :: ps, c :: cs => p == c && startsWithChars ps cs

/-- Does `pat` occur as a contiguous run in the second list? -/
def hasSubstrChars (pat : List Char) : List Char → Bool
  | [] => startsWithChars pat []
  | c :: cs => startsWithChars pat (c :: cs) || hasSubstrChars pat cs

/-- Python's substring test `pat in s`. -/
def strContains (s pat : String) : Bool :=
  hasSubstrChars pat.data s.data

/-- Python's `str.lower()` (ASCII, which covers every string the
notebook manipulates). -/
def pyLower (s : String) : String :=
  String.mk (s.data.map Char.toLower)

/-- `finalize_decision` body (the pure part of the step): from the
claim info and the recommendation, build the `ClaimDecision`.
Mirrors:
`covered = "covered" in rec.recommendation_summary.lower() or
(rec.settlement_amount is not None and rec.settlement_amount > 0)`,
`deductible = rec.deductible if rec.deductible is not None else 0.0`,
`recommended_payout = rec.settlement_amount if rec.settlement_amount else 0.0`
(Python truthiness: `0.0` is falsy). -/
def finalize_decision (claim_info : ClaimInfo) (rec : PolicyRecommendation) : ClaimDecision :=
  { claim_number := claim_info.claim_number
  , covered := strContains (pyLower rec.recommendation_summary) "covered" ||
      (match rec.settlement_amount with
       | some s => decide (0 < s)
       | none => false)
  , deductible :=
      match rec.deductible with
      | some d => d
      | none => 0
  , recommended_payout :=
      match rec.settlement_amount with
      | some s => if s == 0 then 0 else s
      | none => 0
  , notes := some rec.recommendation_summary }

/-- A retrieved node: `d.id_` and `d.get_content()`. -/
structure Doc where
  docId : String
  content : String
deriving DecidableEq, Repr

/-- The Python dict assignment `combined_docs[d.id_] = d` on an
insertion-ordered association list: an existing key keeps its position
and its value is overwritten (last write wins); a new key is appended. -/
def hasKey (m : List (String × Doc)) (k : String) : Bool :=
  m.any (fun p => p.1 == k)

def dictInsert (m : List (String × Doc)) (d : Doc) : List (String × Doc) :=
  if hasKey m d.docId then
    m.map (fun p => if p.1 == d.docId then (p.1, d) else p)
  else
    m ++ [(d.docId, d)]

/-- `generate_policy_queries` step: delegate to the reasoning
collaborator (`llm.astructured_predict(PolicyQueries, ...)`, which
parses/validates internally); a collaborator failure propagates and is
the spec's `GenerationFailed`. Any successfully parsed `PolicyQueries`
— including one with an empty `queries` list — is returned as is. -/
def generate_policy_queries (resp : Except CollabError PolicyQueries) :
    Except RunError PolicyQueries :=
  match resp with
  | Except.error _ => Except.error RunError.generationFailed
  | Except.ok q => Except.ok q

/-- `retrieve_policy_text` step. `search` is the policy retriever
(`policy_retriever.aretrieve`), `declDocs` the result of
`get_declarations_docs(claim_info.policy_number)`. The query loop folds
`combined_docs[d.id_] = d` over the results of each query in order;
then `get_declarations_docs(...)[0]` is merged in — on an empty result
list the indexing raises (the spec's `DeclarationNotFound`). The policy
text is `"\n\n".join(doc.get_content() for doc in combined_docs.values())`. -/
def retrieve_policy_text (search : String → List Doc) (declDocs : List Doc)
    (queries : PolicyQueries) : Except RunError String :=
  let combined := (queries.queries.map search).flatten.foldl dictInsert []
  match declDocs with
  | [] => Except.error RunError.declarationNotFound
  | d :: _ =>
    let combined := dictInsert combined d
    Except.ok (String.intercalate "\n\n" (combined.map (fun p => p.2.content)))

/-- `generate_recommendation` step: delegate to the reasoning
collaborator; a failure (LLM error or unparseable response) is the
spec's `SynthesisFailed`. -/
def generate_recommendation (resp : Except CollabError PolicyRecommendation) :
    Except RunError PolicyRecommendation :=
  match resp with
  | Except.error _ => Except.error RunError.synthesisFailed
  | Except.ok r => Except.ok r

/-- The oracle inputs of one workflow run: the claim-source read, the
two LLM structured predictions (functions of what the prompt contains),
the policy retriever, and the declarations lookup (a function of the
policy number). -/
structure WorkflowInputs where
  claimSource : Except SourceError JObject
  queryResponse : ClaimInfo → Except CollabError PolicyQueries
  search : String → List Doc
  declDocs : String → List Doc
  recResponse : ClaimInfo → String → Except CollabError PolicyRecommendation

/-- `AutoInsuranceWorkflow.run`: the strictly linear chain of steps;
the first error terminates the run. -/
def runWorkflow (i : WorkflowInputs) : Except RunError ClaimDecision :=
  match parse_claim i.claimSource with
  | Except.error e => Except.error e
  | Except.ok claim =>
    match generate_policy_queries (i.queryResponse claim) with
    | Except.error e => Except.error e
    | Except.ok queries =>
      match retrieve_policy_text i.search (i.declDocs claim.policy_number) queries with
      | Except.error e => Except.error e
      | Except.ok text =>
        match generate_recommendation (i.recResponse claim text) with
        | Except.error e => Except.error e
        | Except.ok r => Except.ok (finalize_decision claim r)

/-- The workflow's step names, in pipeline order. -/
inductive StepName where
  | loadClaimInfo
  | generatePolicyQueries
  | retrievePolicyText
  | generateRecommendation
  | finalizeDecision
  | outputResult
deriving DecidableEq, Repr

def allSteps : List StepName :=
  [StepName.loadClaimInfo, StepName.generatePolicyQueries,
   StepName.retrievePolicyText, StepName.generateRecommendation,
   StepName.finalizeDecision, StepName.outputResult]

/-- `runWorkflow` instrumented with the list of COMPLETED steps: a
step that fails is not in the trace; `finalize_decision` and
`output_result` cannot fail. -/
def runWorkflowTrace (i : WorkflowInputs) :
    List StepName × Except RunError ClaimDecision :=
  match parse_claim i.claimSource with
  | Except.error e => ([], Except.error e)
  | Except.ok claim =>
    match generate_policy_queries (i.queryResponse claim) with
    | Except.error e => ([StepName.loadClaimInfo], Except.error e)
    | Except.ok queries =>
      match retrieve_policy_text i.search (i.declDocs claim.policy_number) queries with
      | Except.error e =>
        ([StepName.loadClaimInfo, StepName.generatePolicyQueries], Except.error e)
      | Except.ok text =>
        match generate_recommendation (i.recResponse claim text) with
        | Except.error e =>
          ([StepName.loadClaimInfo, StepName.generatePolicyQueries,
            StepName.retrievePolicyText], Except.error e)
        | Except.ok r => (allSteps, Except.ok (finalize_decision claim r))

/-- Spec-side merge description (§4.3), written from the spec's words:
keep the first occurrence of each document id, dropping later
duplicates; `seen` is the accumulator of ids already kept. -/
def seenKey (seen : List String) (k : String) : Bool :=
  seen.any (fun x => x == k)

def dedupAgainst (seen : List String) : List Doc → List Doc
  | [] => []
  | d :: ds =>
    if seenKey seen d.docId then dedupAgainst seen ds
    else d :: dedupAgainst (seen ++ [d.docId]) ds

/-- First-seen deduplication by document id, the spec's description of
the merge. -/
def dedupFirst (docs : List Doc) : List Doc :=
  dedupAgainst [] docs

/-- The ids accumulated by the merge loop, fold form (proof bridge
between `dictInsert` and `dedupAgainst`). -/
def keysFold (seen : List String) (docs : List Doc) : List String :=
  docs.foldl (fun ks d => if seenKey ks d.docId then ks else ks ++ [d.docId]) seen

/-- Concrete claim-source JSON used in example runs (`data/john.json`
as shown in the notebook, abridged description). -/
def sampleRaw : JObject :=
  [("claim_number", JValue.jstr "CLAIM-0001"),
   ("policy_number", JValue.jstr "POLICY-ABC123"),
   ("claimant_name", JValue.jstr "John Smith"),
   ("date_of_loss", JValue.jstr "2024-04-10"),
   ("loss_description", JValue.jstr "Collided with a parked car"),
   ("estimated_repair_cost", JValue.jnum 1500)]

/-- The `ClaimInfo` that `sampleRaw` validates to. -/
def sampleClaim : ClaimInfo :=
  { claim_number := "CLAIM-0001", policy_number := "POLICY-ABC123",
    claimant_name := "John Smith", date_of_loss := "2024-04-10",
    loss_description := "Collided with a parked car",
    estimated_repair_cost := 1500, vehicle_details := none }

/-- Oracle inputs for a run whose declarations lookup finds nothing. -/
def emptyDeclInputs : WorkflowInputs :=
  { claimSource := Except.ok sampleRaw
  , queryResponse := fun _ => Except.ok { queries := ["collision coverage"] }
  , search := fun _ => []
  , declDocs := fun _ => []
  , recResponse := fun _ _ =>
      Except.ok { policy_section := "S", recommendation_summary := "n/a" } }

/-- Concrete policy retriever for the merge example: the two queries
overlap on document `a`. -/
def overlapSearch : String → List Doc := fun q =>
  if q == "q1" then
    [{ docId := "a", content := "TA" }, { docId := "b", content := "TB" }]
  else
    [{ docId := "a", content := "TA" }, { docId := "c", content := "TC" }]

/-- Concrete declarations-page document for the merge example. -/
def overlapDecl : Doc := { docId := "d", content := "TD" }

/-- Content-by-id function for the merge example. -/
def overlapT : String → String := fun k =>
  if k == "a" then "TA" else if k == "b" then "TB"
  else if k == "c" then "TC" else "TD"

/-! ## Theorems -/

/-- C1: the decision's `covered` field is true iff the lowercase
recommendation summary contains `"covered"` or the settlement amount is
present and strictly positive; in particular a settlement amount of `0`
with a summary not containing `"covered"` yields `covered = false` and
`recommended_payout = 0`. -/
theorem finalize_decision_covered_iff (c : ClaimInfo) (r : PolicyRecommendation) :
    ((finalize_decision c r).covered = true ↔
      (strContains (pyLower r.recommendation_summary) "covered" = true ∨
        ∃ s, r.settlement_amount = some s ∧ 0 < s)) ∧
    (r.settlement_amount = some 0 →
      strContains (pyLower r.recommendation_summary) "covered" = false →
      (finalize_decision c r).covered = false ∧
      (finalize_decision c r).recommended_payout = 0) := by
  constructor
  · cases h : r.settlement_amount with
    | none => simp [finalize_decision, h]
    | some s => simp [finalize_decision, h]
  · intro h0 hnc
    simp [finalize_decision, h0, hnc]

/-- Witness for C1 at a concrete zero-settlement recommendation. -/
theorem finalize_decision_covered_iff_witness :
    ((({ policy_section := "S",
         recommendation_summary := "Claim denied: no applicable provision.",
         settlement_amount := some 0 } : PolicyRecommendation).settlement_amount
        = some 0) ∧
      strContains (pyLower "Claim denied: no applicable provision.") "covered"
        = false) ∧
    (finalize_decision sampleClaim
      { policy_section := "S",
        recommendation_summary := "Claim denied: no applicable provision.",
        settlement_amount := some 0 }).covered = false ∧
    (finalize_decision sampleClaim
      { policy_section := "S",
        recommendation_summary := "Claim denied: no applicable provision.",
        settlement_amount := some 0 }).recommended_payout = 0 :=
  ⟨⟨rfl, by decide⟩,
    (finalize_decision_covered_iff sampleClaim
      { policy_section := "S",
        recommendation_summary := "Claim denied: no applicable provision.",
        settlement_amount := some 0 }).2 rfl (by decide)⟩

/-- C4: the decision's `deductible` is the recommendation's deductible
when present and `0` otherwise; `recommended_payout` is the settlement
amount when present and non-zero and `0` otherwise; `notes` is the
recommendation summary verbatim. -/
theorem finalize_decision_fields (c : ClaimInfo) (r : PolicyRecommendation) :
    ((∀ d, r.deductible = some d → (finalize_decision c r).deductible = d) ∧
      (r.deductible = none → (finalize_decision c r).deductible = 0)) ∧
    ((∀ s, r.settlement_amount = some s → s ≠ 0 →
        (finalize_decision c r).recommended_payout = s) ∧
      (r.settlement_amount = none ∨ r.settlement_amount = some 0 →
        (finalize_decision c r).recommended_payout = 0)) ∧
    (finalize_decision c r).notes = some r.recommendation_summary := by
  refine ⟨⟨?_, ?_⟩, ⟨?_, ?_⟩, rfl⟩
  · intro d hd; simp [finalize_decision, hd]
  · intro hd; simp [finalize_decision, hd]
  · intro s hs hne; simp [finalize_decision, hs, hne]
  · rintro (hs | hs) <;> simp [finalize_decision, hs]

/-- Witness for C4 at a concrete recommendation with deductible 500
and settlement 1000, plus the all-absent case. -/
theorem finalize_decision_fields_witness :
    (finalize_decision sampleClaim
      { policy_section := "Collision", recommendation_summary := "ok",
        deductible := some 500, settlement_amount := some 1000 }).deductible = 500 ∧
    (finalize_decision sampleClaim
      { policy_section := "Collision", recommendation_summary := "ok",
        deductible := some 500, settlement_amount := some 1000 }).recommended_payout = 1000 ∧
    (finalize_decision sampleClaim
      { policy_section := "Collision", recommendation_summary := "ok" }).deductible = 0 ∧
    (finalize_decision sampleClaim
      { policy_section := "Collision", recommendation_summary := "ok" }).recommended_payout = 0 ∧
    (finalize_decision sampleClaim
      { policy_section := "Collision", recommendation_summary := "ok" }).notes = some "ok" :=
  ⟨(finalize_decision_fields sampleClaim _).1.1 500 rfl,
   (finalize_decision_fields sampleClaim _).2.1.1 1000 rfl (by norm_num),
   (finalize_decision_fields sampleClaim _).1.2 rfl,
   (finalize_decision_fields sampleClaim _).2.1.2 (Or.inl rfl),
   (finalize_decision_fields sampleClaim _).2.2⟩

/-- C5: the spec's two concrete scenarios for the Decision Finalizer. -/
theorem finalize_decision_scenarios :
    finalize_decision
      { claim_number := "CLAIM-0001", policy_number := "POLICY-ABC123",
        claimant_name := "John Smith", date_of_loss := "2024-04-10",
        loss_description := "Collided with a parked car",
        estimated_repair_cost := 1500 }
      { policy_section := "Collision Coverage",
        recommendation_summary :=
          "Collision Coverage applies; a $500 deductible applies to this claim.",
        deductible := some 500, settlement_amount := some 1000 } =
      { claim_number := "CLAIM-0001", covered := true, deductible := 500,
        recommended_payout := 1000,
        notes := some
          "Collision Coverage applies; a $500 deductible applies to this claim." } ∧
    finalize_decision
      { claim_number := "CLAIM-0002", policy_number := "POLICY-XYZ789",
        claimant_name := "Alice Brown", date_of_loss := "2024-05-02",
        loss_description := "Hail damage",
        estimated_repair_cost := 2200 }
      { policy_section := "N/A",
        recommendation_summary := "No applicable provision found.",
        deductible := none, settlement_amount := none } =
      { claim_number := "CLAIM-0002", covered := false, deductible := 0,
        recommended_payout := 0,
        notes := some "No applicable provision found." } := by
  constructor <;> decide

/-- C8: the Decision Finalizer is deterministic — it is a pure
function of the claim info and the recommendation (the embedding has
no other inputs, mirroring the absence of external calls in the step),
so identical inputs give identical decisions. -/
theorem finalize_decision_deterministic (c₁ c₂ : ClaimInfo)
    (r₁ r₂ : PolicyRecommendation) (hc : c₁ = c₂) (hr : r₁ = r₂) :
    finalize_decision c₁ r₁ = finalize_decision c₂ r₂ := by
  rw [hc, hr]

/-- Witness for C8 at a concrete claim and recommendation. -/
theorem finalize_decision_deterministic_witness :
    finalize_decision sampleClaim
      { policy_section := "S", recommendation_summary := "ok" } =
    finalize_decision sampleClaim
      { policy_section := "S", recommendation_summary := "ok" } :=
  finalize_decision_deterministic sampleClaim sampleClaim
    { policy_section := "S", recommendation_summary := "ok" }
    { policy_section := "S", recommendation_summary := "ok" } rfl rfl

/-- C6 counterexample: the code does NOT fail on an empty query set.
A response `{}` with the `queries` field absent validates (pydantic
`default_factory=list`) to an empty `PolicyQueries`, and
`generate_policy_queries` returns it successfully instead of raising
`GenerationFailed`. -/
theorem generate_policy_queries_empty_accepted :
    PolicyQueries.model_validate none = { queries := ([] : List String) } ∧
    generate_policy_queries (Except.ok { queries := ([] : List String) }) =
      Except.ok { queries := ([] : List String) } :=
  ⟨rfl, rfl⟩

/-- C6 amended: the Query Generator fails with `GenerationFailed`
exactly when the reasoning collaborator errors (or its response cannot
be parsed into the `PolicyQueries` shape, which surfaces as the same
collaborator error); any successfully parsed query set — the empty set
included — is accepted and returned unchanged. -/
theorem generate_policy_queries_amended :
    (∀ e, generate_policy_queries (Except.error e) =
      Except.error RunError.generationFailed) ∧
    (∀ q, generate_policy_queries (Except.ok q) = Except.ok q) :=
  ⟨fun _ => rfl, fun _ => rfl⟩

/-- C7: `parse_claim` fails with `SourceUnavailable` exactly on a
source read failure; fails with `MalformedClaim` exactly when
validation rejects the raw record (a required field missing or of the
wrong type); returns the validated record when validation accepts it;
and a returned record is always one that `ClaimInfo.model_validate`
accepted — never an unvalidated record. -/
theorem parse_claim_total (src : Except SourceError JObject) :
    (∀ e, src = Except.error e →
      parse_claim src = Except.error RunError.sourceUnavailable) ∧
    (∀ raw, src = Except.ok raw → ClaimInfo.model_validate raw = none →
      parse_claim src = Except.error RunError.malformedClaim) ∧
    (∀ raw c, src = Except.ok raw → ClaimInfo.model_validate raw = some c →
      parse_claim src = Except.ok c) ∧
    (∀ c, parse_claim src = Except.ok c →
      ∃ raw, src = Except.ok raw ∧ ClaimInfo.model_validate raw = some c) := by
  refine ⟨?_, ?_, ?_, ?_⟩
  · rintro e rfl
    rfl
  · rintro raw rfl h
    simp [parse_claim, h]
  · rintro raw c rfl h
    simp [parse_claim, h]
  · intro c h
    cases src with
    | error e => simp [parse_claim] at h
    | ok raw =>
      refine ⟨raw, rfl, ?_⟩
      cases hv : ClaimInfo.model_validate raw with
      | none => simp [parse_claim, hv] at h
      | some c' =>
        simp [parse_claim, hv] at h
        rw [h]

/-- Witness for C7: an unreadable source, a raw record missing every
required field, and a well-formed record, each through `parse_claim`. -/
theorem parse_claim_total_witness :
    parse_claim (Except.error SourceError.unavailable) =
      Except.error RunError.sourceUnavailable ∧
    parse_claim (Except.ok ([] : JObject)) =
      Except.error RunError.malformedClaim ∧
    parse_claim (Except.ok sampleRaw) = Except.ok sampleClaim :=
  ⟨(parse_claim_total (Except.error SourceError.unavailable)).1
      SourceError.unavailable rfl,
   (parse_claim_total (Except.ok ([] : JObject))).2.1 [] rfl rfl,
   (parse_claim_total (Except.ok sampleRaw)).2.2.1 sampleRaw sampleClaim rfl rfl⟩

/-- C10: when the declarations lookup returns more than one document,
`retrieve_policy_text` does not fail: only the first returned document
is merged (`get_declarations_docs(...)[0]`), the rest are ignored, and
the result is the same as if the lookup had returned just the first
document. -/
theorem retrieve_policy_text_extra_declarations (search : String → List Doc)
    (queries : PolicyQueries) (d₁ d₂ : Doc) (rest : List Doc) :
    retrieve_policy_text search (d₁ :: d₂ :: rest) queries =
      retrieve_policy_text search [d₁] queries ∧
    ∃ t, retrieve_policy_text search (d₁ :: d₂ :: rest) queries = Except.ok t :=
  ⟨rfl, ⟨_, rfl⟩⟩

/-- C9: every run is strictly linear — the completed-step trace is a
prefix of `load_claim_info, generate_policy_queries,
retrieve_policy_text, generate_recommendation, finalize_decision,
output_result` in that order; a decision is produced exactly when every
step completed; a failed run stops at the first error with no decision;
and the traced run computes the same result as the plain run. -/
theorem runWorkflow_linear (i : WorkflowInputs) :
    List.IsPrefix (runWorkflowTrace i).1 allSteps ∧
    ((∃ d, (runWorkflowTrace i).2 = Except.ok d) ↔
      (runWorkflowTrace i).1 = allSteps) ∧
    (runWorkflowTrace i).2 = runWorkflow i := by
  unfold runWorkflowTrace runWorkflow
  cases h₁ : parse_claim i.claimSource with
  | error e =>
    dsimp only
    exact ⟨⟨allSteps, rfl⟩, by simp [allSteps], rfl⟩
  | ok claim =>
    dsimp only
    cases h₂ : generate_policy_queries (i.queryResponse claim) with
    | error e =>
      dsimp only
      exact ⟨⟨_, rfl⟩, by simp [allSteps], rfl⟩
    | ok queries =>
      dsimp only
      cases h₃ : retrieve_policy_text i.search (i.declDocs claim.policy_number) queries with
      | error e =>
        dsimp only
        exact ⟨⟨_, rfl⟩, by simp [allSteps], rfl⟩
      | ok text =>
        dsimp only
        cases h₄ : generate_recommendation (i.recResponse claim text) with
        | error e =>
          dsimp only
          exact ⟨⟨_, rfl⟩, by simp [allSteps], rfl⟩
        | ok r =>
          dsimp only
          exact ⟨⟨[], by simp⟩, by simp, rfl⟩

/-- C2: if the run reaches the retrieval step (claim loading and query
generation succeeded) and the declarations lookup by policy-number
metadata returns zero results, the run fails with `DeclarationNotFound`
(the `[0]` on the empty lookup result), the recommendation and
finalization steps never complete, and no decision is produced. -/
theorem declaration_absence_fails (i : WorkflowInputs) (claim : ClaimInfo)
    (queries : PolicyQueries)
    (h₁ : parse_claim i.claimSource = Except.ok claim)
    (h₂ : generate_policy_queries (i.queryResponse claim) = Except.ok queries)
    (h₃ : i.declDocs claim.policy_number = []) :
    runWorkflow i = Except.error RunError.declarationNotFound ∧
    (runWorkflowTrace i).1 =
      [StepName.loadClaimInfo, StepName.generatePolicyQueries] ∧
    ∀ d, runWorkflow i ≠ Except.ok d := by
  have hr : retrieve_policy_text i.search (i.declDocs claim.policy_number) queries =
      Except.error RunError.declarationNotFound := by
    rw [h₃]; rfl
  unfold runWorkflow runWorkflowTrace
  rw [h₁]
  dsimp only
  rw [h₂]
  dsimp only
  rw [hr]
  simp

/-- Witness for C2: concrete oracle inputs whose declarations lookup
is empty. -/
theorem declaration_absence_fails_witness :
    (parse_claim emptyDeclInputs.claimSource = Except.ok sampleClaim ∧
      generate_policy_queries (emptyDeclInputs.queryResponse sampleClaim) =
        Except.ok { queries := ["collision coverage"] } ∧
      emptyDeclInputs.declDocs sampleClaim.policy_number = []) ∧
    runWorkflow emptyDeclInputs = Except.error RunError.declarationNotFound :=
  ⟨⟨rfl, rfl, rfl⟩,
    (declaration_absence_fails emptyDeclInputs sampleClaim
      { queries := ["collision coverage"] } rfl rfl rfl).1⟩

/-- The code's key test on the association list agrees with the
seen-set test on its key projection. -/
theorem hasKey_eq_seenKey (m : List (String × Doc)) (k : String) :
    hasKey m k = seenKey (m.map Prod.fst) k := by
  induction m with
  | nil => rfl
  | cons p m ih =>
    simp only [hasKey, seenKey, List.map_cons, List.any_cons] at *
    rw [ih]

/-- Overwriting a value in place does not change the key sequence. -/
theorem map_fst_overwrite (m : List (String × Doc)) (d : Doc) :
    (m.map (fun p => if p.1 == d.docId then (p.1, d) else p)).map Prod.fst =
      m.map Prod.fst := by
  induction m with
  | nil => rfl
  | cons p m ih =>
    simp only [List.map_cons, ih]
    congr 1
    cases h : (p.1 == d.docId) <;> simp [h]

/-- The key sequence after one dict assignment: unchanged if the key
exists, appended otherwise. -/
theorem dictInsert_keys (m : List (String × Doc)) (d : Doc) :
    (dictInsert m d).map Prod.fst =
      if seenKey (m.map Prod.fst) d.docId then m.map Prod.fst
      else m.map Prod.fst ++ [d.docId] := by
  unfold dictInsert
  rw [hasKey_eq_seenKey]
  cases h : seenKey (m.map Prod.fst) d.docId with
  | true => rw [if_pos rfl, if_pos rfl, map_fst_overwrite]
  | false => simp

/-- The key sequence after the merge loop is the fold of the
first-seen accumulation. -/
theorem foldl_dictInsert_keys (docs : List Doc) (m : List (String × Doc)) :
    (docs.foldl dictInsert m).map Prod.fst = keysFold (m.map Prod.fst) docs := by
  induction docs generalizing m with
  | nil => rfl
  | cons d ds ih =>
    rw [List.foldl_cons, ih, dictInsert_keys]
    unfold keysFold
    rw [List.foldl_cons]

/-- One dict assignment preserves content-determined-by-key. -/
theorem dictInsert_content (T : String → String) (m : List (String × Doc)) (d : Doc)
    (hm : ∀ p ∈ m, p.2.content = T p.1) (hd : d.content = T d.docId) :
    ∀ p ∈ dictInsert m d, p.2.content = T p.1 := by
  intro p hp
  unfold dictInsert at hp
  split at hp
  · rcases List.mem_map.mp hp with ⟨q, hq, rfl⟩
    cases h : (q.1 == d.docId) with
    | true =>
      have hq1 : q.1 = d.docId := eq_of_beq h
      simp [h, hq1, hd]
    | false => simp [h, hm q hq]
  · rcases List.mem_append.mp hp with h | h
    · exact hm p h
    · have hp' : p = (d.docId, d) := by simpa using h
      simp [hp', hd]

/-- The merge loop preserves content-determined-by-key. -/
theorem foldl_dictInsert_content (T : String → String) (docs : List Doc)
    (m : List (String × Doc))
    (hm : ∀ p ∈ m, p.2.content = T p.1)
    (hd : ∀ x ∈ docs, x.content = T x.docId) :
    ∀ p ∈ docs.foldl dictInsert m, p.2.content = T p.1 := by
  induction docs generalizing m with
  | nil => simpa using hm
  | cons d ds ih =>
    rw [List.foldl_cons]
    exact ih (dictInsert m d)
      (dictInsert_content T m d hm (hd d (List.mem_cons_self d ds)))
      (fun x hx => hd x (List.mem_cons_of_mem d hx))

/-- Under content-determined-by-key, the stored contents are the key
sequence mapped through the content function. -/
theorem map_content_eq (T : String → String) (m : List (String × Doc))
    (hm : ∀ p ∈ m, p.2.content = T p.1) :
    m.map (fun p => p.2.content) = (m.map Prod.fst).map T := by
  induction m with
  | nil => rfl
  | cons p m ih =>
    simp only [List.map_cons]
    rw [hm p (List.mem_cons_self p m),
      ih (fun q hq => hm q (List.mem_cons_of_mem p hq))]

/-- Unfolding `keysFold` one document at a time. -/
theorem keysFold_cons (seen : List String) (d : Doc) (ds : List Doc) :
    keysFold seen (d :: ds) =
      keysFold (if seenKey seen d.docId then seen else seen ++ [d.docId]) ds := rfl

/-- The accumulated key sequence is the seen set followed by the ids
of the first-seen-deduplicated documents. -/
theorem keysFold_eq_dedupAgainst (docs : List Doc) (seen : List String) :
    keysFold seen docs = seen ++ (dedupAgainst seen docs).map Doc.docId := by
  induction docs generalizing seen with
  | nil => simp [keysFold, dedupAgainst]
  | cons d ds ih =>
    rw [keysFold_cons]
    cases h : seenKey seen d.docId with
    | true =>
      rw [if_pos rfl]
      unfold dedupAgainst
      rw [if_pos h, ih]
    | false =>
      rw [if_neg (by simp)]
      unfold dedupAgainst
      rw [if_neg (by simp [h]), ih]
      simp

/-- The seen-set test distributes over append. -/
theorem seenKey_append (a b : List String) (k : String) :
    seenKey (a ++ b) k = (seenKey a k || seenKey b k) := by
  simp [seenKey, List.any_append]

/-- Every kept document's id was not previously seen. -/
theorem dedupAgainst_not_seen (docs : List Doc) (seen : List String) :
    ∀ x ∈ dedupAgainst seen docs, seenKey seen x.docId = false := by
  induction docs generalizing seen with
  | nil => simp [dedupAgainst]
  | cons d ds ih =>
    intro x hx
    unfold dedupAgainst at hx
    by_cases h : seenKey seen d.docId = true
    · rw [if_pos h] at hx
      exact ih seen x hx
    · rw [if_neg h] at hx
      rcases List.mem_cons.mp hx with rfl | hx
      · exact Bool.eq_false_iff.mpr h
      · have h₂ := ih (seen ++ [d.docId]) x hx
        rw [seenKey_append] at h₂
        exact (Bool.or_eq_false_iff.mp h₂).1

/-- The kept documents' ids are pairwise distinct. -/
theorem dedupAgainst_nodup (docs : List Doc) (seen : List String) :
    List.Nodup ((dedupAgainst seen docs).map Doc.docId) := by
  induction docs generalizing seen with
  | nil => simp [dedupAgainst]
  | cons d ds ih =>
    unfold dedupAgainst
    by_cases h : seenKey seen d.docId = true
    · rw [if_pos h]
      exact ih seen
    · rw [if_neg h]
      simp only [List.map_cons, List.nodup_cons]
      refine ⟨?_, ih (seen ++ [d.docId])⟩
      intro hmem
      rcases List.mem_map.mp hmem with ⟨x, hx, hxid⟩
      have h₂ := dedupAgainst_not_seen ds (seen ++ [d.docId]) x hx
      rw [seenKey_append] at h₂
      have h₃ := (Bool.or_eq_false_iff.mp h₂).2
      rw [hxid] at h₃
      simp [seenKey] at h₃

/-- Every kept document comes from the input list. -/
theorem dedupAgainst_subset (docs : List Doc) (seen : List String) :
    ∀ x ∈ dedupAgainst seen docs, x ∈ docs := by
  induction docs generalizing seen with
  | nil => simp [dedupAgainst]
  | cons d ds ih =>
    intro x hx
    unfold dedupAgainst at hx
    by_cases h : seenKey seen d.docId = true
    · rw [if_pos h] at hx
      exact List.mem_cons_of_mem d (ih seen x hx)
    · rw [if_neg h] at hx
      rcases List.mem_cons.mp hx with rfl | hx
      · exact List.mem_cons_self x ds
      · exact List.mem_cons_of_mem d (ih (seen ++ [d.docId]) x hx)

/-- Every input document's id is kept (or had already been seen). -/
theorem dedupAgainst_covers (docs : List Doc) (seen : List String) :
    ∀ x ∈ docs, x.docId ∈ (dedupAgainst seen docs).map Doc.docId ∨
      seenKey seen x.docId = true := by
  induction docs generalizing seen with
  | nil => simp
  | cons d ds ih =>
    intro x hx
    unfold dedupAgainst
    by_cases h : seenKey seen d.docId = true
    · rw [if_pos h]
      rcases List.mem_cons.mp hx with rfl | hx
      · exact Or.inr h
      · exact ih seen x hx
    · rw [if_neg h]
      rcases List.mem_cons.mp hx with rfl | hx
      · exact Or.inl (by simp)
      · rcases ih (seen ++ [d.docId]) x hx with hmem | hseen
        · exact Or.inl (by simp [hmem])
        · rw [seenKey_append] at hseen
          rcases Bool.or_eq_true_iff.mp hseen with h₁ | h₂
          · exact Or.inr h₁
          · have : x.docId = d.docId := by
              have h₃ : d.docId = x.docId := by simpa [seenKey] using h₂
              exact h₃.symm
            exact Or.inl (by simp [this])

/-- Bridge: when content is determined by document id, the merged
dict's stored contents are the first-seen-deduplicated contents. -/
theorem merged_contents (T : String → String) (docs : List Doc)
    (hT : ∀ x ∈ docs, x.content = T x.docId) :
    (docs.foldl dictInsert []).map (fun p => p.2.content) =
      (dedupFirst docs).map (fun x => x.content) := by
  rw [map_content_eq T _ (foldl_dictInsert_content T docs [] (by simp) hT),
    foldl_dictInsert_keys, keysFold_eq_dedupAgainst]
  simp only [List.map_nil, List.nil_append]
  unfold dedupFirst
  rw [List.map_map]
  exact List.map_congr_left fun x hx =>
    (hT x (dedupAgainst_subset docs [] x hx)).symm

/-- C3: assuming each document id determines its text (the spec's
"content per id is stable"), the merged policy text is the blank-line
join of the unique document texts in first-seen order over the query
results followed by the declaration result; each distinct id is kept
exactly once (the kept ids are pairwise distinct and every retrieved
id is among them). -/
theorem retrieve_policy_text_dedup (search : String → List Doc)
    (queries : PolicyQueries) (d : Doc) (rest : List Doc) (T : String → String)
    (hT : ∀ x ∈ (queries.queries.map search).flatten ++ [d],
      x.content = T x.docId) :
    retrieve_policy_text search (d :: rest) queries =
      Except.ok (String.intercalate "\n\n"
        ((dedupFirst ((queries.queries.map search).flatten ++ [d])).map
          (fun x => x.content))) ∧
    List.Nodup
      ((dedupFirst ((queries.queries.map search).flatten ++ [d])).map Doc.docId) ∧
    ∀ x ∈ (queries.queries.map search).flatten ++ [d],
      x.docId ∈
        ((dedupFirst ((queries.queries.map search).flatten ++ [d])).map Doc.docId) := by
  refine ⟨?_, dedupAgainst_nodup _ _, ?_⟩
  · unfold retrieve_policy_text
    dsimp only
    rw [show dictInsert ((queries.queries.map search).flatten.foldl dictInsert []) d
        = ((queries.queries.map search).flatten ++ [d]).foldl dictInsert [] by
      rw [List.foldl_append]
      rfl]
    rw [merged_contents T _ hT]
  · intro x hx
    rcases dedupAgainst_covers ((queries.queries.map search).flatten ++ [d]) [] x hx with
      h | h
    · exact h
    · simp [seenKey] at h

/-- Witness for C3: two queries overlapping on document `a`, plus a
separate declaration document. -/
theorem retrieve_policy_text_dedup_witness :
    (∀ x ∈ (({ queries := ["q1", "q2"] } : PolicyQueries).queries.map
        overlapSearch).flatten ++ [overlapDecl],
      x.content = overlapT x.docId) ∧
    retrieve_policy_text overlapSearch [overlapDecl]
        { queries := ["q1", "q2"] } =
      Except.ok "TA\n\nTB\n\nTC\n\nTD" := by
  refine ⟨by decide, ?_⟩
  rw [(retrieve_policy_text_dedup overlapSearch { queries := ["q1", "q2"] }
    overlapDecl [] overlapT (by decide)).1]
  rfl
